import Mathlib

/-
Verification of run_coverage.py: a five-step coverage pipeline driver.
The script is embedded shallowly: every interaction with the outside
world (exit codes of the external tools, the set of discovered coverage
data files, the platform string) is an input in the environment Env, and
the pipeline is a pure function from Env to its final exit code together
with a trace of observable events (console prints, the directory
creation, and each child-process invocation).
-/

namespace RunCoverage

/-- Observable events of one pipeline run: a console print, the creation
of the build directory, and a child-process invocation given by its
argument list, optional working directory and shell flag. -/
inductive Event where
  | print (s : String)
  | mkdirEv
  | cmd (args : List String) (cwd : Option String) (shell : Bool)
deriving Repr, DecidableEq

/-- Environment of one run: everything the script reads from the outside
world. scriptDir is the absolute directory containing the script file;
processCwd is the working directory of the caller; buildDirExists says
whether the build directory already exists; the Exit fields are the
return codes the external tools would produce; gcdaFiles is the list of
paths matching the coverage-data pattern found by the recursive search;
platform is the value of the platform identifier; startExit is the
return code of the optional viewer launch. -/
structure Env where
  scriptDir : String
  processCwd : String
  buildDirExists : Bool
  sysExecutable : String
  configureExit : Int
  buildExit : Int
  testExit : Int
  gcdaFiles : List String
  gcovrExit : Int
  platform : String
  startExit : Int
deriving Repr, DecidableEq

/-- Separator line of sixty equals signs, from the source. -/
def sep60 : String := String.mk (List.replicate 60 '=')

/-- Models Path.mkdir with the exist_ok flag over the one-bit filesystem
state of the model: returns none (an exception) when the directory
already exists and exist_ok is false, otherwise succeeds and the
directory exists afterwards (the returned Bool is the new existence). -/
def mkdir (exist_ok : Bool) (alreadyExists : Bool) : Option Bool :=
  if alreadyExists && !exist_ok then none else some true

/-- Embedding of run_command from the source: prints a banner, runs the
child process (its exit code is the argument k supplied by the
environment), and returns False with an error print when the exit code
is nonzero, True otherwise. -/
def run_command (c : List String) (cwd : Option String) (k : Int) :
    Bool × List Event :=
  let banner : List Event :=
    [.print ("\n" ++ sep60),
     .print ("Running: " ++ String.intercalate " " c),
     .print sep60,
     .cmd c cwd false]
  if k ≠ 0 then
    (false, banner ++ [.print ("ERROR: Command failed with code " ++ toString k)])
  else
    (true, banner)

/-- Argument list of the configure step, from the source. -/
def configureCmd : List String :=
  ["cmake", "-G", "MinGW Makefiles", "-DENABLE_COVERAGE=ON", ".."]

/-- Argument list of the build step, from the source. -/
def buildCmd : List String := ["cmake", "--build", "."]

/-- Argument list of the test step, from the source. -/
def testCmd : List String := ["ctest", "--verbose"]

/-- Project root: the absolute directory containing the script file. -/
def projectRoot (env : Env) : String := env.scriptDir

/-- Build directory: the project root joined with "build". -/
def buildDir (env : Env) : String := projectRoot env ++ "/build"

/-- Output file of the report generator, from the source. -/
def outputFile (env : Env) : String := buildDir env ++ "/coverage.html"

/-- Argument list of the report-generator invocation, from the source. -/
def gcovrCmd (env : Env) : List String :=
  [env.sysExecutable, "-m", "gcovr",
   "--root", projectRoot env,
   "--exclude", ".*external/.*",
   "--exclude", ".*tests/.*",
   "--exclude", ".*build.*/.*",
   "--exclude", ".*_deps/.*",
   "--gcov-ignore-parse-errors", "negative_hits.warn",
   "--html", "--html-details",
   "-o", outputFile env,
   buildDir env]

/-- Embedding of main from the source: the five-step pipeline. Returns
the process exit code and the trace of observable events in order. -/
def main (env : Env) : Nat × List Event :=
  let t0 : List Event :=
    [.print ("Project root: " ++ projectRoot env),
     .print ("Build directory: " ++ buildDir env),
     .print "\n[1/5] Creating build directory..."]
  match mkdir true env.buildDirExists with
  | none => (1, t0)
  | some _ =>
    let t1 := t0 ++ [.mkdirEv, .print "\n[2/5] Configuring with CMake..."]
    let rc := run_command configureCmd (some (buildDir env)) env.configureExit
    let t2 := t1 ++ rc.2
    if rc.1 = false then (1, t2) else
    let t3 := t2 ++ [.print "\n[3/5] Building..."]
    let rb := run_command buildCmd (some (buildDir env)) env.buildExit
    let t4 := t3 ++ rb.2
    if rb.1 = false then (1, t4) else
    let t5 := t4 ++ [.print "\n[4/5] Running tests..."]
    let rt := run_command testCmd (some (buildDir env)) env.testExit
    let t6 := t5 ++ rt.2 ++
      (if rt.1 = false then
        [Event.print "WARNING: Some tests failed, but continuing with coverage..."]
       else [])
    let t7 := t6 ++
      [.print "\n[5/5] Generating coverage report...",
       .print ("Found " ++ toString env.gcdaFiles.length ++ " coverage data files")]
    if env.gcdaFiles.isEmpty then
      (1, t7 ++ [.print "ERROR: No coverage data found. Make sure tests ran successfully."])
    else
    let rg := run_command (gcovrCmd env) (some (projectRoot env)) env.gcovrExit
    let t8 := t7 ++ rg.2
    if rg.1 = false then (1, t8) else
    let t9 := t8 ++
      [.print ("\n" ++ sep60),
       .print "SUCCESS! Coverage report generated:",
       .print ("  " ++ outputFile env),
       .print "\nTo view in browser, run:",
       .print ("  start " ++ outputFile env),
       .print sep60]
    let t10 := if env.platform = "win32"
      then t9 ++ [Event.cmd ["start", outputFile env] none true]
      else t9
    (0, t10)

/-- Final exit code of a run. -/
def mainExit (env : Env) : Nat := (main env).1

/-- Event trace of a run. -/
def mainTrace (env : Env) : List Event := (main env).2

/-- Tests whether an event is a child-process invocation. -/
def Event.isCmd : Event → Bool
  | .cmd _ _ _ => true
  | _ => false

/-- Tests whether an event is the build-directory creation. -/
def Event.isMkdir : Event → Bool
  | .mkdirEv => true
  | _ => false

/-- Tests whether an event invokes the build step. -/
def invokesBuild : Event → Bool
  | .cmd args _ _ => args == buildCmd
  | _ => false

/-- Tests whether an event invokes the test step. -/
def invokesTest : Event → Bool
  | .cmd args _ _ => args == testCmd
  | _ => false

/-- Tests whether an event invokes the report generator: the invoked
argument list names the gcovr module. -/
def invokesGcovr : Event → Bool
  | .cmd args _ _ => args.contains "gcovr"
  | _ => false

/-- Concrete environment where every step succeeds, for witnesses. -/
def envOk : Env :=
  { scriptDir := "/proj", processCwd := "/elsewhere", buildDirExists := false,
    sysExecutable := "python", configureExit := 0, buildExit := 0, testExit := 0,
    gcdaFiles := ["/proj/build/a.gcda"], gcovrExit := 0,
    platform := "win32", startExit := 0 }

/-- C1: a nonzero configure exit code makes the pipeline return 1 without
invoking the build step, and a nonzero build exit code makes it return 1
without invoking the test step. -/
theorem failed_configure_or_build_aborts (env : Env) :
    (env.configureExit ≠ 0 →
      mainExit env = 1 ∧ ∀ e ∈ mainTrace env, invokesBuild e = false) ∧
    (env.buildExit ≠ 0 →
      mainExit env = 1 ∧ ∀ e ∈ mainTrace env, invokesTest e = false) := by
  constructor
  · intro h
    simp [mainExit, mainTrace, main, mkdir, run_command, h,
      invokesBuild, configureCmd, buildCmd]
  · intro h
    by_cases hc : env.configureExit = 0 <;>
      simp [mainExit, mainTrace, main, mkdir, run_command, h, hc,
        invokesTest, configureCmd, buildCmd, testCmd]

/-- C1 witness: at a concrete environment with failing configure the
pipeline exits 1 and the build step is absent from the trace. -/
theorem failed_configure_or_build_aborts_witness :
    mainExit { envOk with configureExit := 2 } = 1 ∧
      ∀ e ∈ mainTrace { envOk with configureExit := 2 }, invokesBuild e = false :=
  (failed_configure_or_build_aborts { envOk with configureExit := 2 }).1 (by decide)

/-- C2: when the test step fails (after successful configure and build)
the pipeline prints the warning, still performs the coverage-data search,
invokes the report generator whenever coverage-data files exist, and its
exit code is the same as if the test step had succeeded. -/
theorem test_failure_tolerated (env : Env)
    (hc : env.configureExit = 0) (hb : env.buildExit = 0) (ht : env.testExit ≠ 0) :
    Event.print "WARNING: Some tests failed, but continuing with coverage..." ∈ mainTrace env ∧
    Event.print ("Found " ++ toString env.gcdaFiles.length ++ " coverage data files")
      ∈ mainTrace env ∧
    (env.gcdaFiles ≠ [] →
      Event.cmd (gcovrCmd env) (some (projectRoot env)) false ∈ mainTrace env) ∧
    mainExit env = mainExit { env with testExit := 0 } := by
  by_cases hg : env.gcdaFiles = [] <;> by_cases hr : env.gcovrExit = 0 <;>
    by_cases hp : env.platform = "win32" <;>
    simp [mainExit, mainTrace, main, mkdir, run_command, hc, hb, ht, hg, hr, hp]

/-- C2 witness: at a concrete environment with a failing test step, the
warning is printed, the search happens, the report generator runs and
the exit code matches the all-tests-pass run. -/
theorem test_failure_tolerated_witness :
    Event.print "WARNING: Some tests failed, but continuing with coverage..."
      ∈ mainTrace { envOk with testExit := 8 } ∧
    Event.print ("Found " ++ toString ({ envOk with testExit := 8 } : Env).gcdaFiles.length
      ++ " coverage data files") ∈ mainTrace { envOk with testExit := 8 } ∧
    (({ envOk with testExit := 8 } : Env).gcdaFiles ≠ [] →
      Event.cmd (gcovrCmd { envOk with testExit := 8 })
        (some (projectRoot { envOk with testExit := 8 })) false
        ∈ mainTrace { envOk with testExit := 8 }) ∧
    mainExit { envOk with testExit := 8 } =
      mainExit { { envOk with testExit := 8 } with testExit := 0 } :=
  test_failure_tolerated { envOk with testExit := 8 }
    (by decide) (by decide) (by decide)

/-- C3: when configure and build succeed but the recursive search finds
no coverage-data files, the pipeline returns 1 and the report generator
is never invoked. -/
theorem no_coverage_data_aborts (env : Env)
    (hc : env.configureExit = 0) (hb : env.buildExit = 0)
    (hg : env.gcdaFiles = []) :
    mainExit env = 1 ∧ ∀ e ∈ mainTrace env, invokesGcovr e = false := by
  by_cases ht : env.testExit = 0 <;>
    simp [mainExit, mainTrace, main, mkdir, run_command, hc, hb, hg, ht,
      invokesGcovr, configureCmd, buildCmd, testCmd]

/-- C3 witness: at a concrete environment with an empty coverage-data
set the pipeline exits 1 and no event invokes the report generator. -/
theorem no_coverage_data_aborts_witness :
    mainExit { envOk with gcdaFiles := [] } = 1 ∧
      ∀ e ∈ mainTrace { envOk with gcdaFiles := [] }, invokesGcovr e = false :=
  no_coverage_data_aborts { envOk with gcdaFiles := [] }
    (by decide) (by decide) (by decide)

/-- C4: when at least one coverage-data file is found and the report
generator succeeds, the pipeline returns 0 and prints the final report
path, which is the project root joined with build and coverage.html. -/
theorem success_prints_report_path (env : Env)
    (hc : env.configureExit = 0) (hb : env.buildExit = 0)
    (hg : env.gcdaFiles ≠ []) (hr : env.gcovrExit = 0) :
    mainExit env = 0 ∧
    Event.print ("  " ++ outputFile env) ∈ mainTrace env ∧
    outputFile env = projectRoot env ++ "/build" ++ "/coverage.html" := by
  by_cases ht : env.testExit = 0 <;> by_cases hp : env.platform = "win32" <;>
    simp [mainExit, mainTrace, main, mkdir, run_command, outputFile, buildDir,
      projectRoot, hc, hb, hg, hr, ht, hp]

/-- C4 witness: at a concrete all-success environment the pipeline exits
0 and prints the report path. -/
theorem success_prints_report_path_witness :
    mainExit envOk = 0 ∧
    Event.print ("  " ++ outputFile envOk) ∈ mainTrace envOk ∧
    outputFile envOk = projectRoot envOk ++ "/build" ++ "/coverage.html" :=
  success_prints_report_path envOk (by decide) (by decide) (by decide) (by decide)

/-- C5: run_command succeeds exactly when the child exit code is zero,
and on a nonzero exit code its output contains an error message naming
that exit code; it is a total function whose failure is communicated
only through the returned Boolean. -/
theorem run_command_contract (c : List String) (w : Option String) (k : Int) :
    ((run_command c w k).1 = true ↔ k = 0) ∧
    (k ≠ 0 →
      Event.print ("ERROR: Command failed with code " ++ toString k)
        ∈ (run_command c w k).2) := by
  by_cases h : k = 0 <;> simp [run_command, h]

/-- C5 witness: a concrete failing command returns false together with
the error print naming exit code 2. -/
theorem run_command_contract_witness :
    Event.print ("ERROR: Command failed with code " ++ toString (2 : Int))
      ∈ (run_command ["false"] none 2).2 :=
  (run_command_contract ["false"] none 2).2 (by decide)

/-- Helper: with exist_ok set, mkdir always succeeds and the directory
exists afterwards, whatever the prior state. -/
theorem mkdir_true (x : Bool) : mkdir true x = some true := by
  cases x <;> rfl

/-- C6: directory creation with exist_ok set cannot fail and leaves the
directory existing, the creation event is in every trace and precedes
every child-process invocation, and a pre-existing build directory does
not change the run at all. -/
theorem build_dir_step_cannot_fail (env : Env) :
    (∀ ex : Bool, mkdir true ex = some true) ∧
    Event.mkdirEv ∈ mainTrace env ∧
    (∀ e ∈ (mainTrace env).takeWhile (fun e => !e.isMkdir), e.isCmd = false) ∧
    (∀ b : Bool, main { env with buildDirExists := b } = main env) := by
  refine ⟨fun ex => by cases ex <;> rfl, ?_, ?_,
    fun b => by simp only [main, mkdir_true, buildDir, projectRoot, outputFile,
      gcovrCmd]⟩ <;>
    (by_cases hc : env.configureExit = 0 <;> by_cases hb : env.buildExit = 0 <;>
     by_cases ht : env.testExit = 0 <;> by_cases hg : env.gcdaFiles = [] <;>
     by_cases hr : env.gcovrExit = 0 <;> by_cases hp : env.platform = "win32" <;>
     simp [mainTrace, main, mkdir, run_command, hc, hb, ht, hg, hr, hp,
       List.takeWhile, Event.isMkdir, Event.isCmd])

/-- C7: the report-generator argument list carries all four exclusion
patterns, each immediately after an exclude flag, and whenever the
pipeline reaches the report step this exact invocation is in the trace. -/
theorem report_includes_four_exclusions (env : Env)
    (hc : env.configureExit = 0) (hb : env.buildExit = 0)
    (hg : env.gcdaFiles ≠ []) :
    ["--exclude", ".*external/.*"] <:+: gcovrCmd env ∧
    ["--exclude", ".*tests/.*"] <:+: gcovrCmd env ∧
    ["--exclude", ".*build.*/.*"] <:+: gcovrCmd env ∧
    ["--exclude", ".*_deps/.*"] <:+: gcovrCmd env ∧
    Event.cmd (gcovrCmd env) (some (projectRoot env)) false ∈ mainTrace env := by
  refine ⟨⟨[env.sysExecutable, "-m", "gcovr", "--root", projectRoot env], _, rfl⟩,
    ⟨[env.sysExecutable, "-m", "gcovr", "--root", projectRoot env,
      "--exclude", ".*external/.*"], _, rfl⟩,
    ⟨[env.sysExecutable, "-m", "gcovr", "--root", projectRoot env,
      "--exclude", ".*external/.*", "--exclude", ".*tests/.*"], _, rfl⟩,
    ⟨[env.sysExecutable, "-m", "gcovr", "--root", projectRoot env,
      "--exclude", ".*external/.*", "--exclude", ".*tests/.*",
      "--exclude", ".*build.*/.*"], _, rfl⟩, ?_⟩
  by_cases ht : env.testExit = 0 <;> by_cases hr : env.gcovrExit = 0 <;>
    by_cases hp : env.platform = "win32" <;>
    simp [mainTrace, main, mkdir, run_command, hc, hb, hg, ht, hr, hp]

/-- C7 witness: at a concrete environment reaching the report step, all
four exclusion pairs occur in the invoked argument list and the
invocation is in the trace. -/
theorem report_includes_four_exclusions_witness :
    ["--exclude", ".*external/.*"] <:+: gcovrCmd envOk ∧
    ["--exclude", ".*tests/.*"] <:+: gcovrCmd envOk ∧
    ["--exclude", ".*build.*/.*"] <:+: gcovrCmd envOk ∧
    ["--exclude", ".*_deps/.*"] <:+: gcovrCmd envOk ∧
    Event.cmd (gcovrCmd envOk) (some (projectRoot envOk)) false ∈ mainTrace envOk :=
  report_includes_four_exclusions envOk (by decide) (by decide) (by decide)

/-- C8: every successful run exits 0, the viewer launch appears in the
trace exactly on the win32 platform, and the viewer exit code has no
effect on the run at all. -/
theorem viewer_best_effort_on_win32 (env : Env)
    (hc : env.configureExit = 0) (hb : env.buildExit = 0)
    (hg : env.gcdaFiles ≠ []) (hr : env.gcovrExit = 0) :
    mainExit env = 0 ∧
    (Event.cmd ["start", outputFile env] none true ∈ mainTrace env ↔
      env.platform = "win32") ∧
    (∀ k : Int, main { env with startExit := k } = main env) := by
  refine ⟨?_, ?_, fun k => rfl⟩ <;>
    (by_cases ht : env.testExit = 0 <;> by_cases hp : env.platform = "win32" <;>
     simp [mainExit, mainTrace, main, mkdir, run_command, hc, hb, hg, hr, ht, hp])

/-- C8 witness: at a concrete all-success win32 environment the exit
code is 0 and the viewer invocation is in the trace. -/
theorem viewer_best_effort_on_win32_witness :
    mainExit envOk = 0 ∧
    (Event.cmd ["start", outputFile envOk] none true ∈ mainTrace envOk ↔
      envOk.platform = "win32") ∧
    (∀ k : Int, main { envOk with startExit := k } = main envOk) :=
  viewer_best_effort_on_win32 envOk (by decide) (by decide) (by decide) (by decide)

/-- C9: the project root is the directory containing the script file,
the build directory is that root joined with build, and the whole run is
independent of the working directory the caller launched from. -/
theorem paths_independent_of_caller_cwd (env : Env) :
    projectRoot env = env.scriptDir ∧
    buildDir env = env.scriptDir ++ "/build" ∧
    (∀ c : String, main { env with processCwd := c } = main env) :=
  ⟨rfl, rfl, fun _ => rfl⟩

/-- Specification of the final exit code as a function of only the four
fatal outcomes: configure success, build success, emptiness of the
discovered coverage-data set, and report-generator success. -/
def exitSpec (cOk bOk : Bool) (noGcda : Bool) (rOk : Bool) : Nat :=
  if cOk = false then 1
  else if bOk = false then 1
  else if noGcda then 1
  else if rOk = false then 1
  else 0

/-- Helper: the final exit code of any run equals exitSpec applied to
the four fatal outcomes of that run. -/
theorem mainExit_eq_exitSpec (env : Env) :
    mainExit env = exitSpec (decide (env.configureExit = 0))
      (decide (env.buildExit = 0)) env.gcdaFiles.isEmpty
      (decide (env.gcovrExit = 0)) := by
  by_cases hc : env.configureExit = 0 <;> by_cases hb : env.buildExit = 0 <;>
    by_cases ht : env.testExit = 0 <;> by_cases hg : env.gcdaFiles = [] <;>
    by_cases hr : env.gcovrExit = 0 <;> by_cases hp : env.platform = "win32" <;>
    simp [mainExit, main, mkdir, run_command, exitSpec, hc, hb, ht, hg, hr, hp]

/-- C10: the final exit code never depends on the test-step exit code:
it is determined by the configure result, the build result, whether the
coverage-data set is empty, and the report-generator result alone. -/
theorem exit_code_ignores_test_result (env : Env) :
    (∀ t : Int, mainExit { env with testExit := t } = mainExit env) ∧
    mainExit env = exitSpec (decide (env.configureExit = 0))
      (decide (env.buildExit = 0)) env.gcdaFiles.isEmpty
      (decide (env.gcovrExit = 0)) := by
  refine ⟨fun t => ?_, mainExit_eq_exitSpec env⟩
  rw [mainExit_eq_exitSpec, mainExit_eq_exitSpec]

end RunCoverage
